import Mathlib

/-!
Verification of the unidirectional compression spring-damper actuator
(`tgBulletUnidirectionalCompressionSpring.cpp`, NTRT core).

Scalars are embedded as rationals; `btVector3` becomes `Vec3`.  Euclidean
norms use `Rat.sqrt`, which is exact whenever the true norm is rational
(every concrete input used below is chosen that way); the theorems that
quantify over all states never depend on the value of a norm.

Members of the base class `tgBulletCompressionSpring` that this file needs
(`getCurrentAnchorDistance`, `getAnchorDirectionUnitVector`, the base
constructor) are not part of this repository slice; they are modelled from
the specification and carry a doc comment saying so.  Everything else is
translated line by line from the source file.

Mutation is made explicit: a `World` record holds the spring together with
the impulses accumulated on the two attached rigid bodies, and `step`
returns the updated world paired with an optional error, mirroring the
C++ exception control flow (a thrown error after mutation returns the
mutated world together with the error).
-/

/-- Embedding of `btVector3` with rational coordinates. -/
structure Vec3 where
  x : ℚ
  y : ℚ
  z : ℚ
deriving DecidableEq

/-- Componentwise difference, `operator-` of `btVector3`. -/
def Vec3.sub (a b : Vec3) : Vec3 := ⟨a.x - b.x, a.y - b.y, a.z - b.z⟩

/-- Componentwise negation of a vector. -/
def Vec3.neg (a : Vec3) : Vec3 := ⟨-a.x, -a.y, -a.z⟩

/-- Scalar multiple of a vector. -/
def Vec3.smul (a : Vec3) (c : ℚ) : Vec3 := ⟨a.x * c, a.y * c, a.z * c⟩

/-- Dot product, `btVector3::dot`. -/
def Vec3.dot (a b : Vec3) : ℚ := a.x * b.x + a.y * b.y + a.z * b.z

/-- Squared Euclidean norm. -/
def Vec3.normSq (a : Vec3) : ℚ := a.dot a

/-- Euclidean norm, `btVector3::length`, via the rational square root
(exact whenever the true norm is rational). -/
def Vec3.length (a : Vec3) : ℚ := Rat.sqrt a.normSq

/-- Embedding of `tgBulletSpringCableAnchor`: a point on a rigid body,
with its world position and its position relative to the body. -/
structure Anchor where
  worldPosition : Vec3
  relativePosition : Vec3
deriving DecidableEq

/-- State of a `tgBulletUnidirectionalCompressionSpring`: the fields of the
base class `tgBulletCompressionSpring` (`m_isFreeEndAttached`, `m_coefK`,
`m_coefD`, `m_restLength`, `m_prevLength`, `m_velocity`, `m_dampingForce`,
`anchor1`, `anchor2`, `m_anchors`) plus `m_direction` of the derived class.
Pointers (`anchor1`, `anchor2`, `m_direction`) are embedded as values, so
the null cases of the C++ invariant have no counterpart here. -/
structure Spring where
  isFreeEndAttached : Bool
  coefK : ℚ
  coefD : ℚ
  restLength : ℚ
  prevLength : ℚ
  velocity : ℚ
  dampingForce : ℚ
  anchor1 : Anchor
  anchor2 : Anchor
  anchors : List Anchor
  direction : Vec3
deriving DecidableEq

/-- One impulse application `applyImpulse(imp, point)` recorded on a rigid
body: the impulse vector and the body-relative point it was applied at. -/
structure ImpulseApp where
  impulse : Vec3
  point : Vec3
deriving DecidableEq

/-- The spring together with the observable effects on the two rigid bodies
attached at `anchor1` and `anchor2`: the list of impulses applied to each
body (in order) and whether each body has been activated. -/
structure World where
  spring : Spring
  body1Impulses : List ImpulseApp
  body2Impulses : List ImpulseApp
  body1Active : Bool
  body2Active : Bool
deriving DecidableEq

/-- The two error conditions `step` can raise: `std::invalid_argument` for a
non-positive timestep, `std::runtime_error` for a collapsed spring. -/
inductive StepError where
  | invalidArgument
  | fatalLength
deriving DecidableEq

/-- Modelled from the spec: base-class `getCurrentAnchorDistance`, the
omnidirectional variant of the distance query, "distance measured directly
between anchors" (spec section 9) - the straight-line distance between the
world positions of the two anchors. The definition of this base-class
member is not part of this repository slice. -/
def getCurrentAnchorDistance (s : Spring) : ℚ :=
  ((s.anchor2.worldPosition).sub s.anchor1.worldPosition).length

/-- Modelled from the spec: base-class `getAnchorDirectionUnitVector`,
the "unit vector from anchor1 to anchor2 in world space (recomputed, not
reusing direction)" (spec section 4.1 step 5). The definition of this
base-class member is not part of this repository slice. -/
def getAnchorDirectionUnitVector (s : Spring) : Vec3 :=
  let v := (s.anchor2.worldPosition).sub s.anchor1.worldPosition
  v.smul (1 / v.length)

/-- Source lines 101-110: the vector between the two anchors dotted with
the direction of this spring.  The source writes `dist * m_direction` where
`m_direction` is a `btVector3 *`; following the function comment on line 99
("Dot getCurrentAnchorDistance with m_direction") this is embedded as the
dot product with the pointee. -/
def getCurrentAnchorDistanceAlongDirection (s : Spring) : ℚ :=
  ((s.anchor2.worldPosition).sub s.anchor1.worldPosition).dot s.direction

/-- Source lines 119-144, `getCurrentSpringLength`: initialize the result to
the rest length; read `getCurrentAnchorDistance()`; if the free end is
attached the length is that anchor distance; otherwise, if the anchor
distance is below the rest length, the length is the anchor distance;
otherwise the default (the rest length) is returned. -/
def getCurrentSpringLength (s : Spring) : ℚ :=
  let springLength := s.restLength
  let currAnchorDist := getCurrentAnchorDistance s
  if s.isFreeEndAttached then currAnchorDist
  else if currAnchorDist < s.restLength then currAnchorDist
  else springLength

/-- Source lines 153-176, `getSpringForce`:
`- getCoefK() * (getCurrentSpringLength() - getRestLength())`.  The damper
force is not included.  (The debug assertion on line 172 is the subject of
claim C8.) -/
def getSpringForce (s : Spring) : ℚ :=
  -s.coefK * (getCurrentSpringLength s - s.restLength)

/-- Source lines 183-232, `calculateAndApplyForce(dt)`: compute the spring
force magnitude, the current length, the recomputed unit vector between the
anchors, the finite-difference velocity `(currLength - m_prevLength) / dt`,
the damping force `- getCoefD() * m_velocity`; add the damping force to the
magnitude; project along the unit vector; store the current length as
`m_prevLength`; then activate each body and apply `force * dt` to body 1 at
the relative position of anchor 1 and `-force * dt` to body 2 at the
relative position of anchor 2. -/
def calculateAndApplyForce (w : World) (dt : ℚ) : World :=
  let s := w.spring
  let magnitude := getSpringForce s
  let currLength := getCurrentSpringLength s
  let unitVector := getAnchorDirectionUnitVector s
  let changeInDeltaX := currLength - s.prevLength
  let velocity := changeInDeltaX / dt
  let dampingForce := -s.coefD * velocity
  let magnitude := magnitude + dampingForce
  let force := unitVector.smul magnitude
  let s2 : Spring :=
    { s with prevLength := currLength, velocity := velocity,
             dampingForce := dampingForce }
  { spring := s2
    body1Impulses :=
      w.body1Impulses ++ [⟨force.smul dt, s.anchor1.relativePosition⟩]
    body2Impulses :=
      w.body2Impulses ++ [⟨(force.smul dt).neg, s.anchor2.relativePosition⟩]
    body1Active := true
    body2Active := true }

/-- Source lines 79-96, `step(dt)`: throw `std::invalid_argument` if
`dt <= 0` (before any computation); otherwise run
`calculateAndApplyForce(dt)` and then throw `std::runtime_error` if
`getCurrentSpringLength() <= 0` on the updated state.  A raised error is
returned next to the world as it stands at the throw point. -/
def step (w : World) (dt : ℚ) : World × Option StepError :=
  if dt ≤ 0 then
    (w, some StepError.invalidArgument)
  else if getCurrentSpringLength (calculateAndApplyForce w dt).spring ≤ 0 then
    (calculateAndApplyForce w dt, some StepError.fatalLength)
  else
    (calculateAndApplyForce w dt, none)

/-- Source lines 234-244, `invariant()`: `m_coefK > 0`, `m_coefD >= 0`,
`m_prevLength >= 0`, `m_restLength >= 0`, and at least two anchors.  The
three pointer non-null checks of the source have no counterpart because the
embedding stores values. -/
def invariant (s : Spring) : Bool :=
  decide (0 < s.coefK) && decide (0 ≤ s.coefD) &&
  decide (0 ≤ s.prevLength) && decide (0 ≤ s.restLength) &&
  decide (2 ≤ s.anchors.length)

/-- Construction of a spring.  The derived-class constructor (source lines
43-67) only stores `m_direction` and checks the invariant; the rest is the
base-class constructor, which is not part of this repository slice.
Modelled from the spec for that part: `previousLength` is initialized to
`restLength` (spec section 3), `anchor1` and `anchor2` are the first two
anchors of the list, and the transient scalars start at zero. -/
def mkSpring (a1 a2 : Anchor) (rest : List Anchor) (isFreeEndAttached : Bool)
    (coefK coefD restLength : ℚ) (direction : Vec3) : Spring :=
  { isFreeEndAttached := isFreeEndAttached
    coefK := coefK
    coefD := coefD
    restLength := restLength
    prevLength := restLength
    velocity := 0
    dampingForce := 0
    anchor1 := a1
    anchor2 := a2
    anchors := a1 :: a2 :: rest
    direction := direction }

/-- Anchor at a given world position (relative position at the origin),
used to build concrete test configurations. -/
def anchorAt (p : Vec3) : Anchor := ⟨p, ⟨0, 0, 0⟩⟩

/-- Concrete spring with the free end attached and anchors two units apart
along the y axis. -/
def exSpringC1 : Spring :=
  mkSpring (anchorAt ⟨0, 0, 0⟩) (anchorAt ⟨0, 2, 0⟩) [] true 100 0 1 ⟨0, 1, 0⟩

/-- Concrete spring with the free end not attached and anchors two units
apart, so the anchor distance exceeds the rest length (slack case). -/
def exSpringC1b : Spring :=
  mkSpring (anchorAt ⟨0, 0, 0⟩) (anchorAt ⟨0, 2, 0⟩) [] false 100 0 1 ⟨0, 1, 0⟩

/-- Concrete attached spring whose anchor separation (4,3,0) has
straight-line length 5 but axial (projected) distance 4 onto the
direction (1,0,0). -/
def exSpringC1c : Spring :=
  mkSpring (anchorAt ⟨0, 0, 0⟩) (anchorAt ⟨4, 3, 0⟩) [] true 100 0 1 ⟨1, 0, 0⟩

/-- Concrete spring whose anchor separation (3,4,0) has straight-line
length 5 but projection 4 onto the direction (0,1,0). -/
def exSpringC2 : Spring :=
  mkSpring (anchorAt ⟨0, 0, 0⟩) (anchorAt ⟨3, 4, 0⟩) [] true 100 0 1 ⟨0, 1, 0⟩

/-- The scenario of spec section 8: `k = 100`, `d = 0`, rest length 1, free
end not attached, anchors 4/5 apart along the direction (0,1,0). -/
def exSpringC3 : Spring :=
  mkSpring (anchorAt ⟨0, 0, 0⟩) (anchorAt ⟨0, 4/5, 0⟩) [] false 100 0 1 ⟨0, 1, 0⟩

/-- The damping scenario of spec section 8: `d = 5`, previous length 4/5,
current anchor distance 7/10, rest length 1. -/
def exSpringC4 : Spring :=
  { mkSpring (anchorAt ⟨0, 0, 0⟩) (anchorAt ⟨0, 7/10, 0⟩) [] false 100 5 1 ⟨0, 1, 0⟩
    with prevLength := 4/5 }

/-- World holding `exSpringC4` before a step, with no impulses applied yet. -/
def exWorldC4 : World :=
  { spring := exSpringC4, body1Impulses := [], body2Impulses := []
    body1Active := false, body2Active := false }

/-- World holding `exSpringC3` before a step, with no impulses applied yet. -/
def exWorldC5 : World :=
  { spring := exSpringC3, body1Impulses := [], body2Impulses := []
    body1Active := false, body2Active := false }

/-- World holding `exSpringC1` before a step, with no impulses applied yet. -/
def exWorldC6 : World :=
  { spring := exSpringC1, body1Impulses := [], body2Impulses := []
    body1Active := false, body2Active := false }

/-- World holding `exSpringC1b` before a step, with no impulses applied yet. -/
def exWorldC7 : World :=
  { spring := exSpringC1b, body1Impulses := [], body2Impulses := []
    body1Active := false, body2Active := false }

/-- Collapsed configuration: the two anchors coincide, so the current spring
length is 0 and a step must raise the fatal-length error. -/
def exSpringC10 : Spring :=
  mkSpring (anchorAt ⟨0, 0, 0⟩) (anchorAt ⟨0, 0, 0⟩) [] true 100 0 1 ⟨0, 1, 0⟩

/-- World holding `exSpringC10` before a step, with no impulses applied yet. -/
def exWorldC10 : World :=
  { spring := exSpringC10, body1Impulses := [], body2Impulses := []
    body1Active := false, body2Active := false }

/-! ## Helper lemmas -/

/-- The Euclidean norm of a vector evaluates to `r` whenever its squared
norm is `r * r` with `0 ≤ r` (the rational square root is exact there). -/
lemma Vec3.length_eval (v : Vec3) (r : ℚ) (h0 : 0 ≤ r) (h : v.normSq = r * r) :
    v.length = r := by
  rw [Vec3.length, h, Rat.sqrt_eq, abs_of_nonneg h0]

/-- Evaluation form of `getCurrentAnchorDistance` on concrete anchors. -/
lemma getCurrentAnchorDistance_eval (s : Spring) (r : ℚ) (h0 : 0 ≤ r)
    (h : ((s.anchor2.worldPosition).sub s.anchor1.worldPosition).normSq = r * r) :
    getCurrentAnchorDistance s = r :=
  Vec3.length_eval _ r h0 h

/-- `calculateAndApplyForce` leaves every field that
`getCurrentSpringLength` reads (the policy flag, the rest length and the
two anchors) unchanged, so the length after the update is the length
before it. -/
lemma getCurrentSpringLength_calc (w : World) (dt : ℚ) :
    getCurrentSpringLength (calculateAndApplyForce w dt).spring
      = getCurrentSpringLength w.spring := rfl

/-! ## Claims -/

/-- C1 (amended): `getCurrentSpringLength` follows the free-end policy
table over the base-class straight-line anchor distance
(`getCurrentAnchorDistance`) - not over the axial (projected) distance the
claim names, which the code never reads (see the counterexample below and
C2): when the free end is attached the effective length is that anchor
distance (also when it exceeds the rest length); when it is not attached
and that distance is below the rest length the effective length is that
distance; when it is not attached and that distance is at least the rest
length the effective length is the rest length, and there the spring force
is 0 (for any stiffness and damping value). -/
theorem c1_getCurrentSpringLength_policy (s : Spring) :
    (s.isFreeEndAttached = true →
      getCurrentSpringLength s = getCurrentAnchorDistance s) ∧
    (s.isFreeEndAttached = false →
      getCurrentAnchorDistance s < s.restLength →
      getCurrentSpringLength s = getCurrentAnchorDistance s) ∧
    (s.isFreeEndAttached = false →
      s.restLength ≤ getCurrentAnchorDistance s →
      getCurrentSpringLength s = s.restLength ∧ getSpringForce s = 0) := by
  refine ⟨?_, ?_, ?_⟩
  · intro h
    simp [getCurrentSpringLength, h]
  · intro h hlt
    simp [getCurrentSpringLength, h, hlt]
  · intro h hge
    have hlen : getCurrentSpringLength s = s.restLength := by
      simp [getCurrentSpringLength, h, not_lt.mpr hge]
    refine ⟨hlen, ?_⟩
    simp [getSpringForce, hlen]

/-- Witness for C1 at concrete inputs: the attached spring two units apart
reports length 2 (above its rest length 1), and the unattached one reports
its rest length 1 with spring force 0. -/
theorem c1_getCurrentSpringLength_policy_witness :
    getCurrentSpringLength exSpringC1 = 2 ∧
    getCurrentSpringLength exSpringC1b = 1 ∧ getSpringForce exSpringC1b = 0 := by
  have hd1 : getCurrentAnchorDistance exSpringC1 = 2 := by
    apply getCurrentAnchorDistance_eval
    · norm_num
    · norm_num [exSpringC1, mkSpring, anchorAt, Vec3.sub, Vec3.normSq, Vec3.dot]
  have hd2 : getCurrentAnchorDistance exSpringC1b = 2 := by
    apply getCurrentAnchorDistance_eval
    · norm_num
    · norm_num [exSpringC1b, mkSpring, anchorAt, Vec3.sub, Vec3.normSq, Vec3.dot]
  have h1 := (c1_getCurrentSpringLength_policy exSpringC1).1 rfl
  have h2 := (c1_getCurrentSpringLength_policy exSpringC1b).2.2 rfl
    (by rw [hd2]; norm_num [exSpringC1b, mkSpring])
  refine ⟨by rw [h1, hd1], ?_, h2.2⟩
  have : exSpringC1b.restLength = 1 := rfl
  rw [h2.1, this]

/-- C1 counterexample: the claim as stated - effective length equals the
axial distance between the anchors, the projection onto `direction`, when
the free end is attached - is false of the code.  At `exSpringC1c`
(attached, anchor separation (4,3,0), direction (1,0,0)) the axial
distance is 4 but `getCurrentSpringLength` returns 5, the straight-line
anchor distance. -/
theorem c1_axial_length_counterexample :
    exSpringC1c.isFreeEndAttached = true ∧
    getCurrentAnchorDistanceAlongDirection exSpringC1c = 4 ∧
    getCurrentSpringLength exSpringC1c = 5 ∧
    getCurrentSpringLength exSpringC1c
      ≠ getCurrentAnchorDistanceAlongDirection exSpringC1c := by
  have hd : getCurrentAnchorDistance exSpringC1c = 5 := by
    apply getCurrentAnchorDistance_eval
    · norm_num
    · norm_num [exSpringC1c, mkSpring, anchorAt, Vec3.sub, Vec3.normSq, Vec3.dot]
  have hproj : getCurrentAnchorDistanceAlongDirection exSpringC1c = 4 := by
    norm_num [getCurrentAnchorDistanceAlongDirection, exSpringC1c, mkSpring,
      anchorAt, Vec3.sub, Vec3.dot]
  have hlen : getCurrentSpringLength exSpringC1c = 5 := by
    have h1 : exSpringC1c.isFreeEndAttached = true := rfl
    simp [getCurrentSpringLength, h1, hd]
  refine ⟨rfl, hproj, hlen, ?_⟩
  rw [hproj, hlen]
  norm_num

/-- C2: at the concrete configuration `exSpringC2` (anchor separation
(3,4,0), direction (0,1,0), free end attached) the projection query
returns 4, yet `getCurrentSpringLength` returns 5: the length policy is
applied to the base-class straight-line anchor distance
(`getCurrentAnchorDistance`), not to the projected distance
(`getCurrentAnchorDistanceAlongDirection`), contradicting the claim and
the comments on source lines 116 and 132-133. -/
theorem c2_policy_reads_unprojected_distance :
    getCurrentAnchorDistanceAlongDirection exSpringC2 = 4 ∧
    getCurrentSpringLength exSpringC2 = 5 ∧
    getCurrentSpringLength exSpringC2
      ≠ getCurrentAnchorDistanceAlongDirection exSpringC2 := by
  have hd : getCurrentAnchorDistance exSpringC2 = 5 := by
    apply getCurrentAnchorDistance_eval
    · norm_num
    · norm_num [exSpringC2, mkSpring, anchorAt, Vec3.sub, Vec3.normSq, Vec3.dot]
  have hproj : getCurrentAnchorDistanceAlongDirection exSpringC2 = 4 := by
    norm_num [getCurrentAnchorDistanceAlongDirection, exSpringC2, mkSpring,
      anchorAt, Vec3.sub, Vec3.dot]
  have hlen : getCurrentSpringLength exSpringC2 = 5 := by
    have h1 : exSpringC2.isFreeEndAttached = true := rfl
    simp [getCurrentSpringLength, h1, hd]
  refine ⟨hproj, hlen, ?_⟩
  rw [hproj, hlen]
  norm_num

/-- C3: the spring force is exactly `-k * (length - restLength)`; a length
below the rest length yields a strictly positive (repulsive) force when
`k > 0`; and the value is independent of the damping coefficient. -/
theorem c3_getSpringForce_law (s : Spring) :
    getSpringForce s = -s.coefK * (getCurrentSpringLength s - s.restLength) ∧
    (0 < s.coefK → getCurrentSpringLength s < s.restLength →
      0 < getSpringForce s) ∧
    (∀ d : ℚ, getSpringForce { s with coefD := d } = getSpringForce s) := by
  refine ⟨rfl, ?_, ?_⟩
  · intro hk hlt
    have h : 0 < s.restLength - getCurrentSpringLength s := by linarith
    unfold getSpringForce
    nlinarith
  · intro d
    rfl

/-- Witness for C3 at the scenario of spec section 8: `k = 100`, `d = 0`,
rest length 1, anchor distance 4/5, giving length 4/5 and force 20. -/
theorem c3_getSpringForce_law_witness :
    getCurrentSpringLength exSpringC3 = 4/5 ∧
    getSpringForce exSpringC3 = 20 ∧ 0 < getSpringForce exSpringC3 := by
  have hd : getCurrentAnchorDistance exSpringC3 = 4/5 := by
    apply getCurrentAnchorDistance_eval
    · norm_num
    · norm_num [exSpringC3, mkSpring, anchorAt, Vec3.sub, Vec3.normSq, Vec3.dot]
  have hatt : exSpringC3.isFreeEndAttached = false := rfl
  have hrl : exSpringC3.restLength = 1 := rfl
  have hlen : getCurrentSpringLength exSpringC3 = 4/5 := by
    rw [getCurrentSpringLength, hatt, hd, hrl]
    norm_num
  have hk : exSpringC3.coefK = 100 := rfl
  refine ⟨hlen, ?_, ?_⟩
  · rw [(c3_getSpringForce_law exSpringC3).1, hlen, hk, hrl]
    norm_num
  · exact (c3_getSpringForce_law exSpringC3).2.1 (by rw [hk]; norm_num)
      (by rw [hlen, hrl]; norm_num)

/-- Composing two scalar multiples multiplies the scalars. -/
lemma Vec3.smul_smul (v : Vec3) (a b : ℚ) :
    (v.smul a).smul b = v.smul (a * b) := by
  simp [Vec3.smul, mul_assoc]

/-- For a positive timestep, the world returned by `step` is the one
produced by `calculateAndApplyForce`, in the fatal-length case as well. -/
lemma step_fst_pos_dt (w : World) (dt : ℚ) (h : 0 < dt) :
    (step w dt).1 = calculateAndApplyForce w dt := by
  rw [step, if_neg (not_le.mpr h)]
  split <;> rfl

/-- C4: in `calculateAndApplyForce(dt)` with `dt > 0`, the velocity
estimate is `(currentSpringLength - previousLength) / dt`, the damping
force is `-d * velocity`, and the impulse applied to body 1 carries the
total magnitude `springForce + dampingForce` (times `dt`, along the
recomputed anchor-line unit vector). -/
theorem c4_damping_finite_difference (w : World) (dt : ℚ) (_h : 0 < dt) :
    (calculateAndApplyForce w dt).spring.velocity
      = (getCurrentSpringLength w.spring - w.spring.prevLength) / dt ∧
    (calculateAndApplyForce w dt).spring.dampingForce
      = -w.spring.coefD *
          ((getCurrentSpringLength w.spring - w.spring.prevLength) / dt) ∧
    (calculateAndApplyForce w dt).body1Impulses
      = w.body1Impulses ++
        [⟨(getAnchorDirectionUnitVector w.spring).smul
            ((getSpringForce w.spring
              + (calculateAndApplyForce w dt).spring.dampingForce) * dt),
          w.spring.anchor1.relativePosition⟩] := by
  refine ⟨rfl, rfl, ?_⟩
  simp [calculateAndApplyForce, Vec3.smul_smul]

/-- Witness for C4 at the damping scenario of spec section 8: length moves
from 4/5 to 7/10 over `dt = 1/100` with `d = 5`, so the velocity estimate
is -10 and the damping force is 50. -/
theorem c4_damping_finite_difference_witness :
    (calculateAndApplyForce exWorldC4 (1/100)).spring.velocity = -10 ∧
    (calculateAndApplyForce exWorldC4 (1/100)).spring.dampingForce = 50 := by
  have h := c4_damping_finite_difference exWorldC4 (1/100) (by norm_num)
  have hd : getCurrentAnchorDistance exWorldC4.spring = 7/10 := by
    apply getCurrentAnchorDistance_eval
    · norm_num
    · norm_num [exWorldC4, exSpringC4, mkSpring, anchorAt, Vec3.sub,
        Vec3.normSq, Vec3.dot]
  have hatt : exWorldC4.spring.isFreeEndAttached = false := rfl
  have hrl : exWorldC4.spring.restLength = 1 := rfl
  have hlen : getCurrentSpringLength exWorldC4.spring = 7/10 := by
    rw [getCurrentSpringLength, hatt, hd, hrl]
    norm_num
  have hprev : exWorldC4.spring.prevLength = 4/5 := rfl
  have hcd : exWorldC4.spring.coefD = 5 := rfl
  constructor
  · rw [h.1, hlen, hprev]
    norm_num
  · rw [h.2.1, hlen, hprev, hcd]
    norm_num

/-- C5: for any `dt > 0`, the `step` call appends exactly one impulse to
each body, the two impulses are exact negatives of each other, the one on
body 1 equals the recomputed anchor-line unit vector times the total
magnitude times `dt`, and each is applied at the body-relative position of
the corresponding anchor. -/
theorem c5_equal_opposite_impulses (w : World) (dt : ℚ) (h : 0 < dt) :
    ∃ f : Vec3,
      f = (getAnchorDirectionUnitVector w.spring).smul
            ((getSpringForce w.spring
              + (step w dt).1.spring.dampingForce) * dt) ∧
      (step w dt).1.body1Impulses
        = w.body1Impulses ++ [⟨f, w.spring.anchor1.relativePosition⟩] ∧
      (step w dt).1.body2Impulses
        = w.body2Impulses ++ [⟨f.neg, w.spring.anchor2.relativePosition⟩] := by
  have hstep := step_fst_pos_dt w dt h
  refine ⟨_, rfl, ?_, ?_⟩ <;>
    rw [hstep] <;>
    simp [calculateAndApplyForce, Vec3.smul_smul]

/-- Witness for C5 at a concrete compressed configuration with `dt = 1`. -/
theorem c5_equal_opposite_impulses_witness :
    ∃ f : Vec3,
      f = (getAnchorDirectionUnitVector exWorldC5.spring).smul
            ((getSpringForce exWorldC5.spring
              + (step exWorldC5 1).1.spring.dampingForce) * 1) ∧
      (step exWorldC5 1).1.body1Impulses
        = exWorldC5.body1Impulses
            ++ [⟨f, exWorldC5.spring.anchor1.relativePosition⟩] ∧
      (step exWorldC5 1).1.body2Impulses
        = exWorldC5.body2Impulses
            ++ [⟨f.neg, exWorldC5.spring.anchor2.relativePosition⟩] :=
  c5_equal_opposite_impulses exWorldC5 1 (by norm_num)

/-- C6: for every `dt ≤ 0`, `step` raises the invalid-argument error,
applies no impulse, and leaves the whole world (spring state and both
impulse histories) exactly as it was at entry. -/
theorem c6_nonpositive_dt_rejected (w : World) (dt : ℚ) (h : dt ≤ 0) :
    step w dt = (w, some StepError.invalidArgument) := by
  rw [step, if_pos h]

/-- Witness for C6 at `dt = 0` and `dt = -1/2`. -/
theorem c6_nonpositive_dt_rejected_witness :
    step exWorldC6 0 = (exWorldC6, some StepError.invalidArgument) ∧
    step exWorldC6 (-1/2) = (exWorldC6, some StepError.invalidArgument) :=
  ⟨c6_nonpositive_dt_rejected exWorldC6 0 (by norm_num),
   c6_nonpositive_dt_rejected exWorldC6 (-1/2) (by norm_num)⟩

/-- C7: for every `dt > 0`, if the spring length after the force
computation and application is at most 0 the call raises the fatal
runtime error, and if that length is positive the call succeeds. -/
theorem c7_fatal_on_collapsed_length (w : World) (dt : ℚ) (h : 0 < dt) :
    (getCurrentSpringLength (calculateAndApplyForce w dt).spring ≤ 0 →
      (step w dt).2 = some StepError.fatalLength) ∧
    (0 < getCurrentSpringLength (calculateAndApplyForce w dt).spring →
      (step w dt).2 = none) := by
  constructor
  · intro hl
    rw [step, if_neg (not_le.mpr h), if_pos hl]
  · intro hl
    rw [step, if_neg (not_le.mpr h), if_neg (not_le.mpr hl)]

/-- Witness for C7: the two-unit-long spring survives a step with
`dt = 1`. -/
theorem c7_fatal_on_collapsed_length_witness :
    (step exWorldC7 1).2 = none := by
  have hd : getCurrentAnchorDistance exWorldC7.spring = 2 := by
    apply getCurrentAnchorDistance_eval
    · norm_num
    · norm_num [exWorldC7, exSpringC1b, mkSpring, anchorAt, Vec3.sub,
        Vec3.normSq, Vec3.dot]
  have hatt : exWorldC7.spring.isFreeEndAttached = false := rfl
  have hrl : exWorldC7.spring.restLength = 1 := rfl
  have hlen : getCurrentSpringLength exWorldC7.spring = 1 := by
    rw [getCurrentSpringLength, hatt, hd, hrl]
    norm_num
  exact (c7_fatal_on_collapsed_length exWorldC7 1 (by norm_num)).2
    (by rw [getCurrentSpringLength_calc, hlen]; norm_num)

/-- C8: when the free end is not attached the spring force is never
negative (the spring only pushes), for every anchor configuration and
every damping value, given a non-negative stiffness; so the debug
assertion on source line 172 never fires. -/
theorem c8_compression_only_force_nonneg (s : Spring)
    (hk : 0 ≤ s.coefK) (hatt : s.isFreeEndAttached = false) :
    0 ≤ getSpringForce s := by
  have hlen : getCurrentSpringLength s ≤ s.restLength := by
    simp only [getCurrentSpringLength, hatt, Bool.false_eq_true, if_false]
    split
    · rename_i hlt
      exact le_of_lt hlt
    · exact le_rfl
  have h2 : 0 ≤ s.restLength - getCurrentSpringLength s := by linarith
  unfold getSpringForce
  nlinarith [mul_nonneg hk h2]

/-- Witness for C8 at the unattached slack spring with `k = 100`. -/
theorem c8_compression_only_force_nonneg_witness :
    (0:ℚ) ≤ exSpringC1b.coefK ∧ exSpringC1b.isFreeEndAttached = false ∧
    0 ≤ getSpringForce exSpringC1b :=
  ⟨by norm_num [exSpringC1b, mkSpring], rfl,
   c8_compression_only_force_nonneg exSpringC1b
     (by norm_num [exSpringC1b, mkSpring]) rfl⟩

/-- C9: for every valid construction (positive stiffness, non-negative
damping and rest length) the class invariant holds immediately after
construction, and the invariant is preserved by every `step` call that
does not raise the fatal-length error (including rejected calls with
`dt ≤ 0`, which change nothing). -/
theorem c9_invariant_after_construction_and_step (a1 a2 : Anchor)
    (rest : List Anchor) (att : Bool) (k d rl : ℚ) (dir : Vec3)
    (hk : 0 < k) (hd : 0 ≤ d) (hrl : 0 ≤ rl) :
    invariant (mkSpring a1 a2 rest att k d rl dir) = true ∧
    (∀ (w : World) (dt : ℚ), invariant w.spring = true →
      (step w dt).2 ≠ some StepError.fatalLength →
      invariant (step w dt).1.spring = true) := by
  constructor
  · simp only [invariant, mkSpring, Bool.and_eq_true, decide_eq_true_eq]
    refine ⟨⟨⟨⟨hk, hd⟩, hrl⟩, hrl⟩, ?_⟩
    simp only [List.length_cons]
    omega
  · intro w dt hinv hnf
    by_cases hdt : dt ≤ 0
    · rw [step, if_pos hdt]
      exact hinv
    · have hpos : ¬ getCurrentSpringLength (calculateAndApplyForce w dt).spring ≤ 0 := by
        intro hle
        exact hnf (by rw [step, if_neg hdt, if_pos hle])
      rw [step, if_neg hdt, if_neg hpos]
      have hlen : 0 ≤ getCurrentSpringLength w.spring := by
        have h1 := not_le.mp hpos
        rw [getCurrentSpringLength_calc] at h1
        exact le_of_lt h1
      simp only [invariant, Bool.and_eq_true, decide_eq_true_eq] at hinv
      simp only [invariant, calculateAndApplyForce, Bool.and_eq_true,
        decide_eq_true_eq]
      exact ⟨⟨⟨⟨hinv.1.1.1.1, hinv.1.1.1.2⟩, hlen⟩, hinv.1.2⟩, hinv.2⟩

/-- Witness for C9: a concrete valid construction satisfies the invariant,
and a concrete non-fatal step preserves it. -/
theorem c9_invariant_after_construction_and_step_witness :
    invariant (mkSpring (anchorAt ⟨0, 0, 0⟩) (anchorAt ⟨0, 2, 0⟩) [] true
      100 5 1 ⟨0, 1, 0⟩) = true ∧
    invariant (step exWorldC6 1).1.spring = true := by
  have h := c9_invariant_after_construction_and_step (anchorAt ⟨0, 0, 0⟩)
    (anchorAt ⟨0, 2, 0⟩) [] true 100 5 1 ⟨0, 1, 0⟩
    (by norm_num) (by norm_num) (by norm_num)
  have hinv : invariant exWorldC6.spring = true := by
    simp only [invariant, Bool.and_eq_true, decide_eq_true_eq]
    refine ⟨⟨⟨⟨?_, ?_⟩, ?_⟩, ?_⟩, ?_⟩ <;>
      norm_num [exWorldC6, exSpringC1, mkSpring]
  have hdist : getCurrentAnchorDistance exWorldC6.spring = 2 := by
    apply getCurrentAnchorDistance_eval
    · norm_num
    · norm_num [exWorldC6, exSpringC1, mkSpring, anchorAt, Vec3.sub,
        Vec3.normSq, Vec3.dot]
  have hatt : exWorldC6.spring.isFreeEndAttached = true := rfl
  have hlen : getCurrentSpringLength exWorldC6.spring = 2 := by
    rw [getCurrentSpringLength, hatt, hdist]
    norm_num
  have hnf : (step exWorldC6 1).2 ≠ some StepError.fatalLength := by
    have hle : ¬ getCurrentSpringLength (calculateAndApplyForce exWorldC6 1).spring ≤ 0 := by
      rw [getCurrentSpringLength_calc, hlen]
      norm_num
    rw [step, if_neg (by norm_num : ¬ (1:ℚ) ≤ 0), if_neg hle]
    simp
  exact ⟨h.1, h.2 exWorldC6 1 hinv hnf⟩

/-- C10: when a `step` call with `dt > 0` ends in the fatal-length error,
the mutations of that step have already happened: one impulse has been
appended to each body history (the two being exact negatives) and
`previousLength` has been overwritten with the current spring length -
the failure is not atomic. -/
theorem c10_fatal_error_after_mutation (w : World) (dt : ℚ) (h : 0 < dt)
    (_hf : (step w dt).2 = some StepError.fatalLength) :
    (step w dt).1.spring.prevLength = getCurrentSpringLength w.spring ∧
    ∃ i1 i2 : ImpulseApp,
      i1.impulse = (i2.impulse).neg ∧
      (step w dt).1.body1Impulses = w.body1Impulses ++ [i1] ∧
      (step w dt).1.body2Impulses = w.body2Impulses ++ [i2] := by
  rw [step_fst_pos_dt w dt h]
  refine ⟨rfl, ⟨_, _, ?_, rfl, rfl⟩⟩
  simp [calculateAndApplyForce, Vec3.neg]

/-- Witness for C10: the collapsed spring (coincident anchors) raises the
fatal error at `dt = 1`, yet its previous length and both impulse
histories show the step already happened. -/
theorem c10_fatal_error_after_mutation_witness :
    (step exWorldC10 1).2 = some StepError.fatalLength ∧
    ((step exWorldC10 1).1.spring.prevLength
        = getCurrentSpringLength exWorldC10.spring ∧
      ∃ i1 i2 : ImpulseApp,
        i1.impulse = (i2.impulse).neg ∧
        (step exWorldC10 1).1.body1Impulses
          = exWorldC10.body1Impulses ++ [i1] ∧
        (step exWorldC10 1).1.body2Impulses
          = exWorldC10.body2Impulses ++ [i2]) := by
  have hd : getCurrentAnchorDistance exWorldC10.spring = 0 := by
    apply getCurrentAnchorDistance_eval
    · norm_num
    · norm_num [exWorldC10, exSpringC10, mkSpring, anchorAt, Vec3.sub,
        Vec3.normSq, Vec3.dot]
  have hatt : exWorldC10.spring.isFreeEndAttached = true := rfl
  have hlen : getCurrentSpringLength exWorldC10.spring = 0 := by
    rw [getCurrentSpringLength, hatt, hd]
    simp
  have hf : (step exWorldC10 1).2 = some StepError.fatalLength := by
    have hle : getCurrentSpringLength (calculateAndApplyForce exWorldC10 1).spring ≤ 0 := by
      rw [getCurrentSpringLength_calc, hlen]
    rw [step, if_neg (by norm_num : ¬ (1:ℚ) ≤ 0), if_pos hle]
  exact ⟨hf, c10_fatal_error_after_mutation exWorldC10 1 (by norm_num) hf⟩
